import Mathlib

/-!
Shallow embedding of `app/models/calculation.py`: the polymorphic
`Calculation` hierarchy (Addition, Subtraction, Multiplication, Division),
its per-variant `get_result` reduction, and the `create` factory.

Python numbers are modelled as rationals; a dynamically typed `inputs`
value is modelled by `PyValue` (a numeric list, a string, or a bare
number).  Exceptions are modelled by `Except CalcError`.
-/

/-- A dynamically typed Python value that can be stored in `inputs`:
a list of numbers, a raw string (e.g. `"12 + 13"`), or a bare number.
`isinstance(x, list)` holds exactly for the `vlist` constructor. -/
inductive PyValue where
  | vlist (xs : List ℚ)
  | vstr (s : String)
  | vnum (q : ℚ)
deriving DecidableEq, Repr

/-- Python's `isinstance(x, list)` on a `PyValue`. -/
def PyValue.isList : PyValue → Bool
  | .vlist _ => true
  | _ => false

/-- The exceptions the calculation module can raise. -/
inductive CalcError where
  | invalidInputKind
  | insufficientInputs
  | divisionByZero
  | notImplementedError
  | unsupportedCalculationType (original : String)
deriving DecidableEq, Repr

/-- The message attached to each raised exception, as in the source. -/
def CalcError.message : CalcError → String
  | .invalidInputKind => "Inputs must be a list of numbers."
  | .insufficientInputs => "Inputs must be a list with at least two numbers."
  | .divisionByZero => "Division by zero not permitted."
  | .notImplementedError => "NotImplementedError"
  | .unsupportedCalculationType s => "Unsupported calculation type: " ++ s

/-- The five Python classes of the hierarchy: the base `Calculation`
and its four variants. -/
inductive CalcClass where
  | calculation
  | addition
  | subtraction
  | multiplication
  | division
deriving DecidableEq, Repr

/-- The `polymorphic_identity` discriminator string declared by each
class's `__mapper_args__`.  `Multiplication` declares `"subtraction"`
in the source (line 110). -/
def polymorphic_identity : CalcClass → String
  | .calculation => "calculation"
  | .addition => "addition"
  | .subtraction => "subtraction"
  | .multiplication => "subtraction"
  | .division => "division"

/-- `uuid.UUID` is opaque to the calculation logic; an abstract id. -/
abbrev UUID := ℕ

/-- A constructed `Calculation` row: its Python class, the stored
discriminator column `type`, the owning `user_id`, and `inputs`. -/
structure Calculation where
  pyClass : CalcClass
  typeCol : String
  user_id : UUID
  inputs : PyValue
deriving DecidableEq, Repr

/-- Instantiating a concrete class sets the `type` column to that
class's `polymorphic_identity` (SQLAlchemy polymorphic dispatch). -/
def CalcClass.new (c : CalcClass) (user_id : UUID) (inputs : PyValue) : Calculation :=
  ⟨c, polymorphic_identity c, user_id, inputs⟩

/-- `Addition.get_result`: validates `inputs`, then `sum(self.inputs)`. -/
def Addition.get_result (inputs : PyValue) : Except CalcError ℚ :=
  match inputs with
  | .vlist xs =>
    if xs.length < 2 then .error .insufficientInputs
    else .ok xs.sum
  | _ => .error .invalidInputKind

/-- `Subtraction.get_result`: validates, then starts from the first
element and subtracts each following element in order. -/
def Subtraction.get_result (inputs : PyValue) : Except CalcError ℚ :=
  match inputs with
  | .vlist xs =>
    if xs.length < 2 then .error .insufficientInputs
    else .ok (xs.tail.foldl (· - ·) xs.headI)
  | _ => .error .invalidInputKind

/-- `Multiplication.get_result`: validates, then starts from the first
element and multiplies by each following element in order. -/
def Multiplication.get_result (inputs : PyValue) : Except CalcError ℚ :=
  match inputs with
  | .vlist xs =>
    if xs.length < 2 then .error .insufficientInputs
    else .ok (xs.tail.foldl (· * ·) xs.headI)
  | _ => .error .invalidInputKind

/-- The loop body of `Division.get_result`: divide the accumulator by
each value in order, raising as soon as a divisor is zero. -/
def divLoop (acc : ℚ) : List ℚ → Except CalcError ℚ
  | [] => .ok acc
  | v :: rest =>
    if v = 0 then .error .divisionByZero
    else divLoop (acc / v) rest

/-- `Division.get_result`: validates, then folds division left-to-right
with a per-step zero-divisor check. -/
def Division.get_result (inputs : PyValue) : Except CalcError ℚ :=
  match inputs with
  | .vlist xs =>
    if xs.length < 2 then .error .insufficientInputs
    else divLoop xs.headI xs.tail
  | _ => .error .invalidInputKind

/-- Dispatch of `get_result` by the instance's Python class.  The base
class's method body is `raise NotImplementedError`; it never inspects
the stored `type` column. -/
def Calculation.get_result (c : Calculation) : Except CalcError ℚ :=
  match c.pyClass with
  | .calculation => .error .notImplementedError
  | .addition => Addition.get_result c.inputs
  | .subtraction => Subtraction.get_result c.inputs
  | .multiplication => Multiplication.get_result c.inputs
  | .division => Division.get_result c.inputs

/-- Python's `str.lower()` on one ASCII character. -/
def lowerChar (c : Char) : Char :=
  if 'A' ≤ c ∧ c ≤ 'Z' then Char.ofNat (c.toNat + 32) else c

/-- Python's `str.lower()` (restricted to ASCII, which is all the factory
compares against). -/
def pyLower (s : String) : String := ⟨s.data.map lowerChar⟩

/-- The `calculation_classes` lookup table of the factory, keyed by the
lower-cased type name. -/
def calculation_classes (s : String) : Option CalcClass :=
  if s = "addition" then some .addition
  else if s = "subtraction" then some .subtraction
  else if s = "multiplication" then some .multiplication
  else if s = "division" then some .division
  else none

/-- `AbstractCalculation.create`: lower-cases the requested type name,
looks it up, and either constructs the matching variant or raises
`ValueError` carrying the original (un-normalized) string. -/
def AbstractCalculation.create (calculation_type : String) (user_id : UUID)
    (inputs : PyValue) : Except CalcError Calculation :=
  match calculation_classes (pyLower calculation_type) with
  | some c => .ok (c.new user_id inputs)
  | none => .error (.unsupportedCalculationType calculation_type)

/-! ## Helper lemmas about the division loop -/

/-- If a zero occurs anywhere in the remaining list, the division loop
raises, whatever the accumulator is. -/
theorem divLoop_error_of_mem_zero (l : List ℚ) :
    ∀ acc : ℚ, 0 ∈ l → divLoop acc l = .error .divisionByZero := by
  induction l with
  | nil => intro acc h; simp at h
  | cons v rest ih =>
    intro acc h
    by_cases hv : v = 0
    · simp [divLoop, hv]
    · have hr : 0 ∈ rest := by
        rcases List.mem_cons.mp h with h1 | h2
        · exact absurd h1.symm hv
        · exact h2
      simp [divLoop, hv, ih (acc / v) hr]

/-- If no zero occurs in the remaining list, the division loop computes
the left fold of division. -/
theorem divLoop_ok_of_no_zero (l : List ℚ) :
    ∀ acc : ℚ, 0 ∉ l → divLoop acc l = .ok (l.foldl (· / ·) acc) := by
  induction l with
  | nil => intro acc _; simp [divLoop]
  | cons v rest ih =>
    intro acc h
    have hv : v ≠ 0 := fun hv => h (by simp [hv])
    have hr : 0 ∉ rest := fun hr => h (List.mem_cons_of_mem _ hr)
    simp [divLoop, hv, ih (acc / v) hr]

/-! ## Claims -/

/-- C1: every variant's `get_result` raises the ValueError
"Inputs must be a list of numbers." whenever `inputs` is not a list
(e.g. a raw string such as "12 + 13"). -/
theorem nonlist_inputs_invalid_kind (v : PyValue) (h : v.isList = false) :
    Addition.get_result v = .error .invalidInputKind ∧
    Subtraction.get_result v = .error .invalidInputKind ∧
    Multiplication.get_result v = .error .invalidInputKind ∧
    Division.get_result v = .error .invalidInputKind ∧
    CalcError.invalidInputKind.message = "Inputs must be a list of numbers." := by
  cases v <;>
    simp_all [PyValue.isList, Addition.get_result, Subtraction.get_result,
      Multiplication.get_result, Division.get_result, CalcError.message]

/-- Witness for C1 at the raw string "12 + 13". -/
theorem nonlist_inputs_invalid_kind_witness :
    (PyValue.vstr "12 + 13").isList = false ∧
    (Addition.get_result (.vstr "12 + 13") = .error .invalidInputKind ∧
     Subtraction.get_result (.vstr "12 + 13") = .error .invalidInputKind ∧
     Multiplication.get_result (.vstr "12 + 13") = .error .invalidInputKind ∧
     Division.get_result (.vstr "12 + 13") = .error .invalidInputKind ∧
     CalcError.invalidInputKind.message = "Inputs must be a list of numbers.") :=
  ⟨rfl, nonlist_inputs_invalid_kind (.vstr "12 + 13") rfl⟩

/-- C2: the `Multiplication` class declares the discriminator string
"subtraction", the same as `Subtraction`, rather than "multiplication". -/
theorem multiplication_discriminator_is_subtraction :
    polymorphic_identity .multiplication = "subtraction" ∧
    polymorphic_identity .multiplication = polymorphic_identity .subtraction ∧
    polymorphic_identity .multiplication ≠ "multiplication" := by
  refine ⟨rfl, rfl, ?_⟩
  decide

/-- C3: `Division.get_result` raises "Division by zero not permitted."
whenever a zero occurs in the tail of a list of length at least two;
the loop aborts at the first zero divisor whatever follows it; in
particular on [42, 2, 3, 0]. -/
theorem division_zero_divisor_errors (xs pre post : List ℚ) (acc : ℚ)
    (h2 : 2 ≤ xs.length) (hz : 0 ∈ xs.tail) (hpre : 0 ∉ pre) :
    Division.get_result (.vlist xs) = .error .divisionByZero ∧
    divLoop acc (pre ++ 0 :: post) = .error .divisionByZero ∧
    Division.get_result (.vlist [42, 2, 3, 0]) = .error .divisionByZero := by
  refine ⟨?_, ?_, rfl⟩
  · have hlen : ¬ xs.length < 2 := Nat.not_lt.mpr h2
    simp [Division.get_result, hlen, divLoop_error_of_mem_zero xs.tail xs.headI hz]
  · exact divLoop_error_of_mem_zero _ acc (by simp)

/-- Witness for C3 at [42, 2, 3, 0], whose tail's first zero divisor sits
after the prefix [2, 3]. -/
theorem division_zero_divisor_errors_witness :
    (2 ≤ ([42, 2, 3, 0] : List ℚ).length ∧ (0 : ℚ) ∈ ([42, 2, 3, 0] : List ℚ).tail ∧
      (0 : ℚ) ∉ ([2, 3] : List ℚ)) ∧
    (Division.get_result (.vlist [42, 2, 3, 0]) = .error .divisionByZero ∧
     divLoop 42 ([2, 3] ++ 0 :: []) = .error .divisionByZero ∧
     Division.get_result (.vlist [42, 2, 3, 0]) = .error .divisionByZero) :=
  ⟨⟨by norm_num, by norm_num, by norm_num⟩,
    division_zero_divisor_errors [42, 2, 3, 0] [2, 3] [] 42
      (by norm_num) (by norm_num) (by norm_num)⟩

/-- C4: for any type name whose lower-casing is one of the four known
names, `create` succeeds and builds the corresponding variant carrying
exactly the given user id and inputs, however invalid the inputs are;
in particular create "AdDiTiOn" with [12, 10, 9, 18, -30] yields an
Addition whose result is 19. -/
theorem create_known_type_constructs_variant (s : String) (uid : UUID) (v : PyValue)
    (h : pyLower s ∈ (["addition", "subtraction", "multiplication", "division"] : List String)) :
    (∃ c : CalcClass, calculation_classes (pyLower s) = some c ∧
      AbstractCalculation.create s uid v = .ok (CalcClass.new c uid v) ∧
      (CalcClass.new c uid v).user_id = uid ∧ (CalcClass.new c uid v).inputs = v ∧
      (CalcClass.new c uid v).pyClass = c) ∧
    AbstractCalculation.create "AdDiTiOn" uid (.vlist [12, 10, 9, 18, -30]) =
      .ok (CalcClass.new .addition uid (.vlist [12, 10, 9, 18, -30])) ∧
    (CalcClass.new .addition uid (.vlist [12, 10, 9, 18, -30])).get_result = .ok 19 := by
  refine ⟨?_, rfl, ?_⟩
  · simp only [List.mem_cons, List.not_mem_nil, or_false] at h
    rcases h with h | h | h | h
    · exact ⟨.addition, by simp [calculation_classes, h],
        by simp [AbstractCalculation.create, calculation_classes, h], rfl, rfl, rfl⟩
    · exact ⟨.subtraction, by simp [calculation_classes, h],
        by simp [AbstractCalculation.create, calculation_classes, h], rfl, rfl, rfl⟩
    · exact ⟨.multiplication, by simp [calculation_classes, h],
        by simp [AbstractCalculation.create, calculation_classes, h], rfl, rfl, rfl⟩
    · exact ⟨.division, by simp [calculation_classes, h],
        by simp [AbstractCalculation.create, calculation_classes, h], rfl, rfl, rfl⟩
  · simp [CalcClass.new, Calculation.get_result, Addition.get_result]
    norm_num

/-- Witness for C4 at the mixed-case name "AdDiTiOn". -/
theorem create_known_type_constructs_variant_witness :
    pyLower "AdDiTiOn" ∈ (["addition", "subtraction", "multiplication", "division"] : List String) ∧
    ((∃ c : CalcClass, calculation_classes (pyLower "AdDiTiOn") = some c ∧
      AbstractCalculation.create "AdDiTiOn" 7 (.vlist [12, 10, 9, 18, -30]) =
        .ok (CalcClass.new c 7 (.vlist [12, 10, 9, 18, -30])) ∧
      (CalcClass.new c 7 (.vlist [12, 10, 9, 18, -30])).user_id = 7 ∧
      (CalcClass.new c 7 (.vlist [12, 10, 9, 18, -30])).inputs = .vlist [12, 10, 9, 18, -30] ∧
      (CalcClass.new c 7 (.vlist [12, 10, 9, 18, -30])).pyClass = c) ∧
    AbstractCalculation.create "AdDiTiOn" 7 (.vlist [12, 10, 9, 18, -30]) =
      .ok (CalcClass.new .addition 7 (.vlist [12, 10, 9, 18, -30])) ∧
    (CalcClass.new .addition 7 (.vlist [12, 10, 9, 18, -30])).get_result = .ok 19) :=
  ⟨by decide, create_known_type_constructs_variant "AdDiTiOn" 7 (.vlist [12, 10, 9, 18, -30])
    (by decide)⟩

/-- C5: for any type name whose lower-casing is none of the four known
names, `create` raises "Unsupported calculation type: " followed by the
original, un-normalized string; in particular for "power". -/
theorem create_unknown_type_errors (s : String) (uid : UUID) (v : PyValue)
    (h : pyLower s ∉ (["addition", "subtraction", "multiplication", "division"] : List String)) :
    AbstractCalculation.create s uid v = .error (.unsupportedCalculationType s) ∧
    (CalcError.unsupportedCalculationType s).message = "Unsupported calculation type: " ++ s ∧
    AbstractCalculation.create "power" uid (.vlist [12, 13]) =
      .error (.unsupportedCalculationType "power") := by
  refine ⟨?_, rfl, rfl⟩
  simp only [List.mem_cons, List.not_mem_nil, or_false, not_or] at h
  obtain ⟨h1, h2, h3, h4⟩ := h
  simp [AbstractCalculation.create, calculation_classes, h1, h2, h3, h4]

/-- Witness for C5 at the unknown name "power". -/
theorem create_unknown_type_errors_witness :
    pyLower "power" ∉ (["addition", "subtraction", "multiplication", "division"] : List String) ∧
    (AbstractCalculation.create "power" 7 (.vlist [12, 13]) =
        .error (.unsupportedCalculationType "power") ∧
     (CalcError.unsupportedCalculationType "power").message =
        "Unsupported calculation type: " ++ "power" ∧
     AbstractCalculation.create "power" 7 (.vlist [12, 13]) =
        .error (.unsupportedCalculationType "power")) :=
  ⟨by decide, create_unknown_type_errors "power" 7 (.vlist [12, 13]) (by decide)⟩

/-- C6: on any numeric list with at least two elements, `Addition.get_result`
returns the sum of all elements. -/
theorem addition_result_is_sum (xs : List ℚ) (h : 2 ≤ xs.length) :
    Addition.get_result (.vlist xs) = .ok xs.sum := by
  simp [Addition.get_result, Nat.not_lt.mpr h]

/-- Witness for C6 at [1, 2]. -/
theorem addition_result_is_sum_witness :
    2 ≤ ([1, 2] : List ℚ).length ∧
    Addition.get_result (.vlist [1, 2]) = .ok (([1, 2] : List ℚ).sum) :=
  ⟨by norm_num, addition_result_is_sum [1, 2] (by norm_num)⟩

/-- C7: on any numeric list with at least two elements,
`Subtraction.get_result` is the left fold of subtraction starting from
the first element; in particular [10, 5, 3.5] yields 1.5. -/
theorem subtraction_result_is_left_fold (a b : ℚ) (rest : List ℚ) :
    Subtraction.get_result (.vlist (a :: b :: rest)) = .ok ((b :: rest).foldl (· - ·) a) ∧
    Subtraction.get_result (.vlist [10, 5, 3.5]) = .ok 1.5 := by
  constructor
  · simp [Subtraction.get_result]
  · simp [Subtraction.get_result]
    norm_num

/-- C8: on any numeric list with at least two elements and no zero after
the first, `Division.get_result` is the left fold of division starting
from the first element; in particular [42, 3, 2] yields 7. -/
theorem division_result_is_left_fold (a b : ℚ) (rest : List ℚ) (h : 0 ∉ b :: rest) :
    Division.get_result (.vlist (a :: b :: rest)) = .ok ((b :: rest).foldl (· / ·) a) ∧
    Division.get_result (.vlist [42, 3, 2]) = .ok 7 := by
  constructor
  · simpa [Division.get_result] using divLoop_ok_of_no_zero (b :: rest) a h
  · simp [Division.get_result, divLoop]
    norm_num

/-- Witness for C8 at [42, 3, 2]. -/
theorem division_result_is_left_fold_witness :
    (0 : ℚ) ∉ ([3, 2] : List ℚ) ∧
    (Division.get_result (.vlist [42, 3, 2]) = .ok (([3, 2] : List ℚ).foldl (· / ·) 42) ∧
     Division.get_result (.vlist [42, 3, 2]) = .ok 7) :=
  ⟨by norm_num, division_result_is_left_fold 42 3 [2] (by norm_num)⟩

/-- C9: every variant's `get_result` raises the ValueError
"Inputs must be a list with at least two numbers." whenever `inputs` is
a list with fewer than two elements, such as [10]. -/
theorem short_inputs_insufficient (xs : List ℚ) (h : xs.length < 2) :
    Addition.get_result (.vlist xs) = .error .insufficientInputs ∧
    Subtraction.get_result (.vlist xs) = .error .insufficientInputs ∧
    Multiplication.get_result (.vlist xs) = .error .insufficientInputs ∧
    Division.get_result (.vlist xs) = .error .insufficientInputs ∧
    CalcError.insufficientInputs.message =
      "Inputs must be a list with at least two numbers." := by
  refine ⟨?_, ?_, ?_, ?_, rfl⟩ <;>
    simp [Addition.get_result, Subtraction.get_result, Multiplication.get_result,
      Division.get_result, h]

/-- Witness for C9 at the single-element list [10]. -/
theorem short_inputs_insufficient_witness :
    ([10] : List ℚ).length < 2 ∧
    (Addition.get_result (.vlist [10]) = .error .insufficientInputs ∧
     Subtraction.get_result (.vlist [10]) = .error .insufficientInputs ∧
     Multiplication.get_result (.vlist [10]) = .error .insufficientInputs ∧
     Division.get_result (.vlist [10]) = .error .insufficientInputs ∧
     CalcError.insufficientInputs.message =
       "Inputs must be a list with at least two numbers.") :=
  ⟨by norm_num, short_inputs_insufficient [10] (by norm_num)⟩

/-- C10: `get_result` on a directly constructed base `Calculation` raises
NotImplementedError for every stored `type` string and every `inputs`
value — including when the stored string is "addition" — and that failure
is distinct from all four validation errors. -/
theorem base_calculation_not_implemented (uid : UUID) (tc : String) (v : PyValue) :
    Calculation.get_result ⟨.calculation, tc, uid, v⟩ = .error .notImplementedError ∧
    Calculation.get_result ⟨.calculation, "addition", uid, v⟩ = .error .notImplementedError ∧
    CalcError.notImplementedError ≠ .invalidInputKind ∧
    CalcError.notImplementedError ≠ .insufficientInputs ∧
    CalcError.notImplementedError ≠ .divisionByZero ∧
    ∀ s : String, CalcError.notImplementedError ≠ .unsupportedCalculationType s := by
  refine ⟨rfl, rfl, by simp, by simp, by simp, fun s => by simp⟩
